import Mathlib

/-!
Shallow embedding of the jnet ICMP module (src/icmp.rs).

A packet is a byte buffer (modelled as `List Nat`, each entry a byte value)
together with two phantom type-state markers: the protocol subtype marker
(`Marker`) and the checksum-validity marker (`CkMarker`).  The Rust phantom
type parameters become value-level indices of the `Packet` structure.

The Internet checksum engine lives in the crate's `ipv4` module, which is not
part of the examined source; it is modelled here from the spec (section 4.2).
Likewise the `full_range!` macro that generates the byte/`Type` conversions is
modelled from the spec (section 4.3).
-/

namespace Icmp

/-- Modelled from the spec: one carry-folding step plus termination fuel.
The spec (section 4.2) folds carry bits beyond position 16 back into the low
16 bits until no carry remains; fuel bounds the iteration, and `fold16` below
supplies enough fuel for the fixpoint to be reached. -/
def foldCarry : Nat → Nat → Nat
  | 0, n => n
  | fuel + 1, n => if n < 65536 then n else foldCarry fuel (n % 65536 + n / 65536)

/-- Modelled from the spec: fold all carries of an accumulated sum back into
the low 16 bits until no carry remains. -/
def fold16 (n : Nat) : Nat := foldCarry n n

/-- Modelled from the spec: sum of the 16-bit big-endian words of a byte
sequence; an odd tail byte is padded with a zero low byte. -/
def sumWords : List Nat → Nat
  | [] => 0
  | [b] => 256 * b
  | b0 :: b1 :: rest => (256 * b0 + b1) + sumWords rest

/-- Bytes at `off` and `off + 1` treated as zero (spec section 4.2: the two
bytes at the checksum field offset are treated as zero while summing). -/
def zeroField (bytes : List Nat) (off : Nat) : List Nat :=
  (bytes.set off 0).set (off + 1) 0

/-- Modelled from the spec: `ipv4::compute_checksum` (section 4.2) — sum the
16-bit big-endian words with the checksum field treated as zero, fold all
carries, and return the one's complement of the 16-bit result. -/
def compute_checksum (bytes : List Nat) (off : Nat) : Nat :=
  65535 - fold16 (sumWords (zeroField bytes off))

/-- Modelled from the spec: `ipv4::verify_checksum` (section 4.2) — sum all
words including the stored checksum field; valid iff the pre-complement
accumulated sum equals 0xFFFF. -/
def verify_checksum (bytes : List Nat) : Bool :=
  fold16 (sumWords bytes) == 65535

/-- The ICMP `Type` registry (src/icmp.rs lines 367-378).  The enumerated
variants and their numeric codes are from the source; the lossless catch-all
`Other` variant is modelled from the spec (section 4.3), because the
`full_range!` macro that generates the conversions is not in the examined
source. -/
inductive IcmpType : Type where
  | EchoReply
  | DestinationUnreachable
  | EchoRequest
  | Other (b : Nat)
deriving DecidableEq, Repr

/-- Modelled from the spec: byte-to-symbol conversion generated by
`full_range!`; enumerated codes are EchoReply = 0, DestinationUnreachable = 3,
EchoRequest = 8 (from the source), every other byte maps to the lossless
catch-all. -/
def byteToType (b : Nat) : IcmpType :=
  if b = 0 then IcmpType.EchoReply
  else if b = 3 then IcmpType.DestinationUnreachable
  else if b = 8 then IcmpType.EchoRequest
  else IcmpType.Other b

/-- Modelled from the spec: symbol-to-byte conversion generated by
`full_range!` (the `type_.into()` used by `set_type`). -/
def typeToByte : IcmpType → Nat
  | IcmpType.EchoReply => 0
  | IcmpType.DestinationUnreachable => 3
  | IcmpType.EchoRequest => 8
  | IcmpType.Other b => b

/-- The subtype phantom marker: `EchoReply`, `EchoRequest` or `Unknown`. -/
inductive Marker : Type where
  | echoReply
  | echoRequest
  | unknown
deriving DecidableEq, Repr

/-- Whether a subtype marker satisfies the `Echo` bound (src lines 49-54:
`Echo` is implemented exactly for `EchoReply` and `EchoRequest`). -/
def Marker.isEcho : Marker → Bool
  | Marker.echoReply => true
  | Marker.echoRequest => true
  | Marker.unknown => false

/-- The checksum-validity phantom marker: `Valid` or `Invalid`. -/
inductive CkMarker : Type where
  | valid
  | invalid
deriving DecidableEq, Repr

/-- `Packet<BUFFER, TYPE, CHECKSUM>` (src lines 33-41): a byte buffer with two
phantom markers; the markers are value-level indices here. -/
structure Packet (t : Marker) (c : CkMarker) : Type where
  buffer : List Nat
deriving DecidableEq, Repr

/-- `NetworkEndian::read_u16`: big-endian 16-bit read at byte offset `i`. -/
def readU16 (bytes : List Nat) (i : Nat) : Nat :=
  256 * bytes.getD i 0 + bytes.getD (i + 1) 0

/-- `NetworkEndian::write_u16`: big-endian 16-bit write of `v` (a `u16`, hence
reduced modulo 2^16) at byte offsets `i` and `i + 1`. -/
def writeU16 (bytes : List Nat) (i v : Nat) : List Nat :=
  (bytes.set i (v % 65536 / 256)).set (i + 1) (v % 256)

/-- `Packet::get_type` (src lines 239-247): compile-time constant for a known
subtype marker, live byte at offset 0 (decoded through the registry) for
`Unknown`. -/
def Packet.get_type {t : Marker} {c : CkMarker} (p : Packet t c) : IcmpType :=
  match t with
  | Marker.echoReply => IcmpType.EchoReply
  | Marker.echoRequest => IcmpType.EchoRequest
  | Marker.unknown => byteToType (p.buffer.getD 0 0)

/-- `Packet::get_code` (src lines 250-258): 0 for a known subtype marker, live
byte at offset 1 for `Unknown`. -/
def Packet.get_code {t : Marker} {c : CkMarker} (p : Packet t c) : Nat :=
  match t with
  | Marker.echoReply => 0
  | Marker.echoRequest => 0
  | Marker.unknown => p.buffer.getD 1 0

/-- `Packet::get_identifier` (src lines 83-85). -/
def Packet.get_identifier {t : Marker} {c : CkMarker} (p : Packet t c) : Nat :=
  readU16 p.buffer 4

/-- `Packet::get_sequence_number` (src lines 88-90). -/
def Packet.get_sequence_number {t : Marker} {c : CkMarker} (p : Packet t c) : Nat :=
  readU16 p.buffer 6

/-- `Packet::get_checksum` (src lines 280-282). -/
def Packet.get_checksum {t : Marker} {c : CkMarker} (p : Packet t c) : Nat :=
  readU16 p.buffer 2

/-- `Packet::payload` (src lines 261-263): bytes from offset 8 on. -/
def Packet.payload {t : Marker} {c : CkMarker} (p : Packet t c) : List Nat :=
  p.buffer.drop 8

/-- `Packet::len` (src lines 266-268): buffer length cast `as u16`. -/
def Packet.len {t : Marker} {c : CkMarker} (p : Packet t c) : Nat :=
  p.buffer.length % 65536

/-- `Packet::<B, Unknown, Invalid>::set_type` (src lines 138-140): writes the
registry encoding of `ty` at byte offset 0, in place. -/
def Packet.set_type (p : Packet Marker.unknown CkMarker.invalid) (ty : IcmpType) :
    Packet Marker.unknown CkMarker.invalid :=
  ⟨p.buffer.set 0 (typeToByte ty)⟩

/-- `Packet::<B, Unknown, Invalid>::set_code` (src lines 143-145): writes the
code byte at offset 1, in place. -/
def Packet.set_code (p : Packet Marker.unknown CkMarker.invalid) (code : Nat) :
    Packet Marker.unknown CkMarker.invalid :=
  ⟨p.buffer.set 1 code⟩

/-- `Packet::<B, E, Invalid>::set_identifier` (src lines 100-102); the source
bounds `E : Echo` (see `exposedOn`). -/
def Packet.set_identifier {e : Marker} (p : Packet e CkMarker.invalid) (ident : Nat) :
    Packet e CkMarker.invalid :=
  ⟨writeU16 p.buffer 4 ident⟩

/-- `Packet::<B, E, Invalid>::set_sequence_number` (src lines 105-107); the
source bounds `E : Echo` (see `exposedOn`). -/
def Packet.set_sequence_number {e : Marker} (p : Packet e CkMarker.invalid) (seqNo : Nat) :
    Packet e CkMarker.invalid :=
  ⟨writeU16 p.buffer 6 seqNo⟩

/-- `Packet::<B, T, Valid>::invalidate_header_checksum` (src lines 317-319):
pure relabeling `Valid` to `Invalid` over the same storage. -/
def Packet.invalidate_header_checksum {t : Marker} (p : Packet t CkMarker.valid) :
    Packet t CkMarker.invalid :=
  ⟨p.buffer⟩

/-- `Packet::<B, Unknown, Valid>::set_type` (src lines 154-158): consuming
setter — demote to `Invalid`, then the in-place mutation. -/
def Packet.set_type_valid (p : Packet Marker.unknown CkMarker.valid) (ty : IcmpType) :
    Packet Marker.unknown CkMarker.invalid :=
  Packet.set_type p.invalidate_header_checksum ty

/-- `Packet::<B, Unknown, Valid>::set_code` (src lines 161-165): consuming
setter — demote to `Invalid`, then the in-place mutation. -/
def Packet.set_code_valid (p : Packet Marker.unknown CkMarker.valid) (code : Nat) :
    Packet Marker.unknown CkMarker.invalid :=
  Packet.set_code p.invalidate_header_checksum code

/-- `Packet::<B, T, Invalid>::update_checksum` (src lines 305-310): compute
the Internet checksum over the whole buffer with the checksum field zeroed,
write it big-endian at offsets 2-3, relabel `Valid`. -/
def Packet.update_checksum {t : Marker} (p : Packet t CkMarker.invalid) :
    Packet t CkMarker.valid :=
  ⟨writeU16 p.buffer 2 (compute_checksum p.buffer 2)⟩

/-- `Packet::<B, Unknown, Valid>::parse` (src lines 117-129): reject a buffer
shorter than the 8-byte header, verify the Internet checksum over the full
buffer, and on failure hand the original buffer back. -/
def parse (bytes : List Nat) : Except (List Nat) (Packet Marker.unknown CkMarker.valid) :=
  if bytes.length < 8 then Except.error bytes
  else if verify_checksum bytes then Except.ok ⟨bytes⟩
  else Except.error bytes

/-- `Packet::<B, EchoRequest, Invalid>::new` (src lines 63-72): the
`assert!(len >= 8)` panic is modelled as `none`; otherwise write type byte 8
and code byte 0 through the `Unknown`/`Invalid` setters and relabel. -/
def new (buffer : List Nat) : Option (Packet Marker.echoRequest CkMarker.invalid) :=
  if buffer.length < 8 then none
  else
    let p0 : Packet Marker.unknown CkMarker.invalid := ⟨buffer⟩
    let p1 := (p0.set_type IcmpType.EchoRequest).set_code 0
    some ⟨p1.buffer⟩

/-- `TryFrom<Packet<B, Unknown, C>> for Packet<B, EchoRequest, C>` (src lines
208-221), reached through `downcast` (src lines 172-179): succeed iff the live
type is `EchoRequest` and the live code is 0, relabeling the same storage;
fail by returning the original packet. -/
def downcast_echoRequest {c : CkMarker} (p : Packet Marker.unknown c) :
    Except (Packet Marker.unknown c) (Packet Marker.echoRequest c) :=
  if p.get_type = IcmpType.EchoRequest ∧ p.get_code = 0 then Except.ok ⟨p.buffer⟩
  else Except.error p

/-- `TryFrom<Packet<B, Unknown, C>> for Packet<B, EchoReply, C>` (src lines
193-206), reached through `downcast`. -/
def downcast_echoReply {c : CkMarker} (p : Packet Marker.unknown c) :
    Except (Packet Marker.unknown c) (Packet Marker.echoReply c) :=
  if p.get_type = IcmpType.EchoReply ∧ p.get_code = 0 then Except.ok ⟨p.buffer⟩
  else Except.error p

/-- `From<Packet<B, EchoRequest, C>> for Packet<B, EchoReply, Valid>` (src
lines 181-191): relabel to `Unknown`/`Invalid`, overwrite the type byte with
the EchoReply code, relabel to `EchoReply`/`Invalid`, recompute the checksum. -/
def into_echoReply {c : CkMarker} (p : Packet Marker.echoRequest c) :
    Packet Marker.echoReply CkMarker.valid :=
  let p1 : Packet Marker.unknown CkMarker.invalid := ⟨p.buffer⟩
  let p2 := p1.set_type IcmpType.EchoReply
  let p3 : Packet Marker.echoReply CkMarker.invalid := ⟨p2.buffer⟩
  p3.update_checksum

/-- The four header-mutating setters of the source. -/
inductive SetterOp : Type where
  | ident
  | seqNo
  | ty
  | code
deriving DecidableEq, Repr

/-- Which (subtype marker, checksum marker) pairs expose each setter, read off
the source impl blocks: `set_identifier`/`set_sequence_number` exist only on
`Invalid` packets with an `Echo`-bounded subtype (src lines 93-108);
`set_type`/`set_code` exist on `Unknown` packets, both `Invalid` (src lines
132-146) and `Valid` (src lines 148-166). -/
def exposedOn : Marker → CkMarker → SetterOp → Bool
  | m, CkMarker.invalid, SetterOp.ident => m.isEcho
  | m, CkMarker.invalid, SetterOp.seqNo => m.isEcho
  | Marker.unknown, _, SetterOp.ty => true
  | Marker.unknown, _, SetterOp.code => true
  | _, _, _ => false

end Icmp

namespace Icmp

theorem foldCarry_lt (fuel n : Nat) (h : n ≤ fuel + 65535) : foldCarry fuel n < 65536 := by
  induction fuel generalizing n with
  | zero => simp only [foldCarry]; omega
  | succ fuel ih =>
      simp only [foldCarry]
      split
      · omega
      · exact ih _ (by omega)

theorem foldCarry_mod (fuel n : Nat) : foldCarry fuel n % 65535 = n % 65535 := by
  induction fuel generalizing n with
  | zero => rfl
  | succ fuel ih =>
      simp only [foldCarry]
      split
      · rfl
      · rw [ih]; omega

theorem foldCarry_pos (fuel n : Nat) (h : 0 < n) : 0 < foldCarry fuel n := by
  induction fuel generalizing n with
  | zero => simpa [foldCarry] using h
  | succ fuel ih =>
      simp only [foldCarry]
      split
      · exact h
      · exact ih _ (by omega)

theorem fold16_lt (n : Nat) : fold16 n < 65536 := foldCarry_lt n n (by omega)

theorem fold16_mod (n : Nat) : fold16 n % 65535 = n % 65535 := foldCarry_mod n n

theorem fold16_pos (n : Nat) (h : 0 < n) : 0 < fold16 n := foldCarry_pos n n h

/-- The RFC 1071 identity behind the checksum round trip: adding the one's
complement of the folded sum back into the sum folds to 0xFFFF. -/
theorem checksum_fold_roundtrip (S : Nat) : fold16 (S + (65535 - fold16 S)) = 65535 := by
  have hc := fold16_lt S
  have hm := fold16_mod S
  have hm0 : (S + (65535 - fold16 S)) % 65535 = 0 := by omega
  have hmpos : 0 < S + (65535 - fold16 S) := by
    rcases Nat.eq_zero_or_pos S with hS | hS
    · have hz : fold16 S = 0 := by rw [hS]; rfl
      omega
    · omega
  have h1 := fold16_lt (S + (65535 - fold16 S))
  have h2 := fold16_mod (S + (65535 - fold16 S))
  have h3 := fold16_pos _ hmpos
  omega

theorem exists_decomp4 (l : List Nat) (h : 4 ≤ l.length) :
    ∃ b0 b1 b2 b3 rest, l = b0 :: b1 :: b2 :: b3 :: rest := by
  rcases l with _ | ⟨b0, _ | ⟨b1, _ | ⟨b2, _ | ⟨b3, rest⟩⟩⟩⟩ <;>
    first
      | (exact ⟨b0, b1, b2, b3, rest, rfl⟩)
      | (simp at h)

theorem exists_decomp8 (l : List Nat) (h : 8 ≤ l.length) :
    ∃ b0 b1 b2 b3 b4 b5 b6 b7 rest,
      l = b0 :: b1 :: b2 :: b3 :: b4 :: b5 :: b6 :: b7 :: rest := by
  rcases l with _ | ⟨b0, _ | ⟨b1, _ | ⟨b2, _ | ⟨b3, _ | ⟨b4, _ | ⟨b5, _ | ⟨b6, _ | ⟨b7, rest⟩⟩⟩⟩⟩⟩⟩⟩ <;>
    first
      | (exact ⟨b0, b1, b2, b3, b4, b5, b6, b7, rest, rfl⟩)
      | (simp at h)

/-- Writing the computed checksum into the word-aligned checksum field makes
the whole-buffer verification succeed, whatever the field held before. -/
theorem verify_writeU16_compute (bytes : List Nat) (h : 4 ≤ bytes.length) :
    verify_checksum (writeU16 bytes 2 (compute_checksum bytes 2)) = true := by
  obtain ⟨b0, b1, b2, b3, rest, rfl⟩ := exists_decomp4 bytes h
  have hvlt : compute_checksum (b0 :: b1 :: b2 :: b3 :: rest) 2 ≤ 65535 := by
    unfold compute_checksum; omega
  have key :
      sumWords (writeU16 (b0 :: b1 :: b2 :: b3 :: rest) 2
          (compute_checksum (b0 :: b1 :: b2 :: b3 :: rest) 2))
        = sumWords (zeroField (b0 :: b1 :: b2 :: b3 :: rest) 2)
            + compute_checksum (b0 :: b1 :: b2 :: b3 :: rest) 2 := by
    generalize compute_checksum (b0 :: b1 :: b2 :: b3 :: rest) 2 = v at hvlt ⊢
    show (256 * b0 + b1) + ((256 * (v % 65536 / 256) + v % 256) + sumWords rest)
        = (256 * b0 + b1) + ((256 * 0 + 0) + sumWords rest) + v
    omega
  unfold verify_checksum
  rw [key]
  have hr := checksum_fold_roundtrip (sumWords (zeroField (b0 :: b1 :: b2 :: b3 :: rest) 2))
  unfold compute_checksum
  rw [hr]
  rfl

theorem byteToType_eq_echoRequest (b : Nat) :
    byteToType b = IcmpType.EchoRequest ↔ b = 8 := by
  unfold byteToType
  split_ifs with h1 h2 h3 <;> simp_all

theorem byteToType_eq_echoReply (b : Nat) :
    byteToType b = IcmpType.EchoReply ↔ b = 0 := by
  unfold byteToType
  split_ifs with h1 h2 h3 <;> simp_all

end Icmp

namespace Icmp

/-- Claim C1: `parse` returns an `Unknown`/`Valid` packet over the input bytes
exactly when the buffer is at least 8 bytes long and the Internet checksum
verification over the full buffer succeeds; otherwise it returns the
original, unmodified buffer (an `error` value, not an exception). -/
theorem parse_spec (bytes : List Nat) :
    (parse bytes = Except.ok ⟨bytes⟩ ∨ parse bytes = Except.error bytes)
    ∧ (parse bytes = Except.ok ⟨bytes⟩ ↔ 8 ≤ bytes.length ∧ verify_checksum bytes = true) := by
  unfold parse
  split_ifs with h1 h2
  · refine ⟨Or.inr rfl, ?_, ?_⟩
    · intro h; exact h.elim
    · intro h; exact absurd h.1 (by omega)
  · refine ⟨Or.inl rfl, ?_, ?_⟩
    · intro _; exact ⟨by omega, h2⟩
    · intro _; rfl
  · refine ⟨Or.inr rfl, ?_, ?_⟩
    · intro h; exact h.elim
    · intro h; exact absurd h.2 h2

/-- Claim C2: `update_checksum` writes the Internet checksum of the complete
byte range (checksum field treated as zero) big-endian at offsets 2-3 and the
result verifies; equivalently, for any buffer `B` of length at least 8 with a
zeroed checksum field, writing `compute_checksum B 2` into the field makes
`verify_checksum` succeed. -/
theorem update_checksum_correct (t : Marker) (p : Packet t CkMarker.invalid) (B : List Nat)
    (hp : 8 ≤ p.buffer.length) (hB : 8 ≤ B.length)
    (_hB2 : B.getD 2 0 = 0) (_hB3 : B.getD 3 0 = 0) :
    p.update_checksum.buffer = writeU16 p.buffer 2 (compute_checksum p.buffer 2)
    ∧ verify_checksum p.update_checksum.buffer = true
    ∧ verify_checksum (writeU16 B 2 (compute_checksum B 2)) = true :=
  ⟨rfl, verify_writeU16_compute p.buffer (by omega), verify_writeU16_compute B (by omega)⟩

/-- Witness for claim C2 at the test fixture's ICMP bytes with the checksum
field zeroed. -/
theorem update_checksum_correct_witness :
    (Packet.update_checksum (t := Marker.echoRequest)
        ⟨[8, 0, 0, 0, 0, 4, 0, 2]⟩).buffer
      = writeU16 [8, 0, 0, 0, 0, 4, 0, 2] 2 (compute_checksum [8, 0, 0, 0, 0, 4, 0, 2] 2)
    ∧ verify_checksum (Packet.update_checksum (t := Marker.echoRequest)
        ⟨[8, 0, 0, 0, 0, 4, 0, 2]⟩).buffer = true
    ∧ verify_checksum (writeU16 [8, 0, 0, 0, 0, 4, 0, 2] 2
        (compute_checksum [8, 0, 0, 0, 0, 4, 0, 2] 2)) = true :=
  update_checksum_correct Marker.echoRequest ⟨[8, 0, 0, 0, 0, 4, 0, 2]⟩
    [8, 0, 0, 0, 0, 4, 0, 2] (by decide) (by decide) (by decide) (by decide)

/-- Claim C4: on an `Unknown` packet, downcast succeeds exactly when the live
type byte equals the subtype's fixed code (8 for EchoRequest, 0 for EchoReply)
and the code byte is 0; success relabels the same storage, failure hands back
the original packet unchanged. -/
theorem downcast_spec (c : CkMarker) (p : Packet Marker.unknown c) :
    (downcast_echoRequest p = Except.ok ⟨p.buffer⟩ ∨ downcast_echoRequest p = Except.error p)
    ∧ (downcast_echoRequest p = Except.ok ⟨p.buffer⟩
        ↔ p.buffer.getD 0 0 = 8 ∧ p.buffer.getD 1 0 = 0)
    ∧ (downcast_echoReply p = Except.ok ⟨p.buffer⟩ ∨ downcast_echoReply p = Except.error p)
    ∧ (downcast_echoReply p = Except.ok ⟨p.buffer⟩
        ↔ p.buffer.getD 0 0 = 0 ∧ p.buffer.getD 1 0 = 0) := by
  unfold downcast_echoRequest downcast_echoReply
  refine ⟨?_, Iff.intro ?_ ?_, ?_, Iff.intro ?_ ?_⟩
  · by_cases h : p.get_type = IcmpType.EchoRequest ∧ p.get_code = 0
    · rw [if_pos h]; exact Or.inl rfl
    · rw [if_neg h]; exact Or.inr rfl
  · intro heq
    by_cases h : p.get_type = IcmpType.EchoRequest ∧ p.get_code = 0
    · exact ⟨(byteToType_eq_echoRequest _).mp h.1, h.2⟩
    · rw [if_neg h] at heq; exact Except.noConfusion heq
  · intro hh
    rw [if_pos ⟨(byteToType_eq_echoRequest _).mpr hh.1, hh.2⟩]
  · by_cases h : p.get_type = IcmpType.EchoReply ∧ p.get_code = 0
    · rw [if_pos h]; exact Or.inl rfl
    · rw [if_neg h]; exact Or.inr rfl
  · intro heq
    by_cases h : p.get_type = IcmpType.EchoReply ∧ p.get_code = 0
    · exact ⟨(byteToType_eq_echoReply _).mp h.1, h.2⟩
    · rw [if_neg h] at heq; exact Except.noConfusion heq
  · intro hh
    rw [if_pos ⟨(byteToType_eq_echoReply _).mpr hh.1, hh.2⟩]

/-- Claim C6: byte-to-symbol decoding followed by re-encoding is the identity
for every byte value 0-255, with Echo Reply = 0, Destination Unreachable = 3
and Echo Request = 8 enumerated. -/
theorem type_roundtrip (b : Nat) (_h : b < 256) :
    typeToByte (byteToType b) = b
    ∧ byteToType 0 = IcmpType.EchoReply
    ∧ byteToType 3 = IcmpType.DestinationUnreachable
    ∧ byteToType 8 = IcmpType.EchoRequest := by
  refine ⟨?_, rfl, rfl, rfl⟩
  unfold byteToType
  split_ifs with h1 h2 h3 <;> simp_all [typeToByte]

/-- Witness for claim C6 at byte value 200. -/
theorem type_roundtrip_witness :
    typeToByte (byteToType 200) = 200
    ∧ byteToType 0 = IcmpType.EchoReply
    ∧ byteToType 3 = IcmpType.DestinationUnreachable
    ∧ byteToType 8 = IcmpType.EchoRequest :=
  type_roundtrip 200 (by decide)

/-- Claim C7: on a packet marked with a known subtype, `get_type` and
`get_code` return the compile-time constants whatever the buffer holds; on an
`Unknown` packet they read the live bytes at offsets 0 and 1. -/
theorem get_type_code_spec (c : CkMarker) (p1 : Packet Marker.echoReply c)
    (p2 : Packet Marker.echoRequest c) (p3 : Packet Marker.unknown c) :
    p1.get_type = IcmpType.EchoReply ∧ p1.get_code = 0
    ∧ p2.get_type = IcmpType.EchoRequest ∧ p2.get_code = 0
    ∧ p3.get_type = byteToType (p3.buffer.getD 0 0) ∧ p3.get_code = p3.buffer.getD 1 0 :=
  ⟨rfl, rfl, rfl, rfl, rfl, rfl⟩

/-- Claim C10: `len` is the buffer length reduced modulo 2^16, and it equals
the true length exactly when that length is below 2^16. -/
theorem len_spec (t : Marker) (c : CkMarker) (p : Packet t c) :
    p.len = p.buffer.length % 65536
    ∧ (p.len = p.buffer.length ↔ p.buffer.length < 65536) := by
  refine ⟨rfl, ?_⟩
  unfold Packet.len
  omega

end Icmp

namespace Icmp

/-- Claim C3 counterexample: the claim says each of `set_identifier`,
`set_sequence_number`, `set_type`, `set_code` is exposed on a `Valid`-marked
packet as a consuming mutator; but the source exposes `set_identifier` and
`set_sequence_number` only on `Invalid`-marked packets (src lines 93-108 is
the only impl block defining them). -/
theorem setter_exposure_counterexample :
    exposedOn Marker.echoRequest CkMarker.valid SetterOp.ident = false
    ∧ exposedOn Marker.echoRequest CkMarker.valid SetterOp.seqNo = false :=
  ⟨rfl, rfl⟩

/-- Claim C3 (amended): `set_type` and `set_code` (on `Unknown`-typed packets)
are exposed both on `Invalid`-marked packets (in place) and on `Valid`-marked
packets, where they are consuming: a pure relabeling to `Invalid` that changes
no bytes, then the same in-place mutation; `set_identifier` and
`set_sequence_number` are exposed only on `Invalid`-marked packets (with an
`Echo`-bounded subtype), mutating in place. -/
theorem setters_amended (m : Marker) (p : Packet Marker.unknown CkMarker.valid)
    (q : Packet m CkMarker.invalid) (ty : IcmpType) (cd v w : Nat) :
    exposedOn m CkMarker.invalid SetterOp.ident = m.isEcho
    ∧ exposedOn m CkMarker.valid SetterOp.ident = false
    ∧ exposedOn m CkMarker.invalid SetterOp.seqNo = m.isEcho
    ∧ exposedOn m CkMarker.valid SetterOp.seqNo = false
    ∧ exposedOn Marker.unknown CkMarker.invalid SetterOp.ty = true
    ∧ exposedOn Marker.unknown CkMarker.valid SetterOp.ty = true
    ∧ exposedOn Marker.unknown CkMarker.invalid SetterOp.code = true
    ∧ exposedOn Marker.unknown CkMarker.valid SetterOp.code = true
    ∧ p.set_type_valid ty = Packet.set_type p.invalidate_header_checksum ty
    ∧ p.set_code_valid cd = Packet.set_code p.invalidate_header_checksum cd
    ∧ p.invalidate_header_checksum.buffer = p.buffer
    ∧ (q.set_identifier v).buffer = writeU16 q.buffer 4 v
    ∧ (q.set_sequence_number w).buffer = writeU16 q.buffer 6 w := by
  refine ⟨?_, ?_, ?_, ?_, rfl, rfl, rfl, rfl, rfl, rfl, rfl, rfl, rfl⟩ <;> cases m <;> rfl

/-- Claim C5: converting an EchoRequest packet to an EchoReply packet keeps
the buffer length, overwrites the type byte with the EchoReply code 0, leaves
the code byte, identifier, sequence number and payload untouched (all bytes
from offset 4 on are unchanged), and the resulting bytes pass checksum
verification. -/
theorem into_echoReply_correct (c : CkMarker) (p : Packet Marker.echoRequest c)
    (h : 8 ≤ p.buffer.length) :
    (into_echoReply p).buffer.length = p.buffer.length
    ∧ (into_echoReply p).buffer.getD 0 0 = 0
    ∧ (into_echoReply p).buffer.getD 1 0 = p.buffer.getD 1 0
    ∧ (into_echoReply p).buffer.drop 4 = p.buffer.drop 4
    ∧ (into_echoReply p).get_identifier = p.get_identifier
    ∧ (into_echoReply p).get_sequence_number = p.get_sequence_number
    ∧ (into_echoReply p).payload = p.payload
    ∧ verify_checksum (into_echoReply p).buffer = true := by
  obtain ⟨buf⟩ := p
  obtain ⟨b0, b1, b2, b3, b4, b5, b6, b7, rest, rfl⟩ := exists_decomp8 buf h
  refine ⟨rfl, rfl, rfl, rfl, rfl, rfl, rfl, ?_⟩
  exact verify_writeU16_compute
    ((b0 :: b1 :: b2 :: b3 :: b4 :: b5 :: b6 :: b7 :: rest).set 0 (typeToByte IcmpType.EchoReply))
    (by simp only [List.length_set, List.length_cons]; omega)

/-- Witness for claim C5 at the test fixture's ICMP bytes. -/
theorem into_echoReply_correct_witness :
    (into_echoReply (⟨[8, 0, 247, 249, 0, 4, 0, 2]⟩ :
        Packet Marker.echoRequest CkMarker.valid)).buffer.length = 8
    ∧ verify_checksum (into_echoReply (⟨[8, 0, 247, 249, 0, 4, 0, 2]⟩ :
        Packet Marker.echoRequest CkMarker.valid)).buffer = true := by
  have hm := into_echoReply_correct CkMarker.valid ⟨[8, 0, 247, 249, 0, 4, 0, 2]⟩ (by decide)
  exact ⟨hm.1, hm.2.2.2.2.2.2.2⟩

/-- Claim C8: fresh construction of an Echo Request packet fails fatally
(modelled as `none`) on a buffer shorter than 8 bytes; on a buffer of at
least 8 bytes it writes the fixed type byte 8 and code byte 0 and returns a
packet over the same storage (same length, other bytes untouched). -/
theorem new_spec (small big : List Nat) (hs : small.length < 8) (hb : 8 ≤ big.length) :
    new small = none
    ∧ new big = some ⟨(big.set 0 8).set 1 0⟩
    ∧ ((big.set 0 8).set 1 0).getD 0 0 = 8
    ∧ ((big.set 0 8).set 1 0).getD 1 0 = 0
    ∧ ((big.set 0 8).set 1 0).length = big.length := by
  obtain ⟨b0, b1, b2, b3, b4, b5, b6, b7, rest, rfl⟩ := exists_decomp8 big hb
  refine ⟨?_, ?_, rfl, rfl, by simp⟩
  · unfold new; rw [if_pos hs]
  · unfold new
    rw [if_neg (by simp only [List.length_cons]; omega)]
    rfl

/-- Witness for claim C8 at a 3-byte buffer and an 8-byte buffer. -/
theorem new_spec_witness :
    new [1, 2, 3] = none
    ∧ new [9, 9, 9, 9, 9, 9, 9, 9] = some ⟨([9, 9, 9, 9, 9, 9, 9, 9].set 0 8).set 1 0⟩
    ∧ (([9, 9, 9, 9, 9, 9, 9, 9].set 0 8).set 1 0).getD 0 0 = 8
    ∧ (([9, 9, 9, 9, 9, 9, 9, 9].set 0 8).set 1 0).getD 1 0 = 0
    ∧ (([9, 9, 9, 9, 9, 9, 9, 9].set 0 8).set 1 0).length
        = ([9, 9, 9, 9, 9, 9, 9, 9] : List Nat).length :=
  new_spec [1, 2, 3] [9, 9, 9, 9, 9, 9, 9, 9] (by decide) (by decide)

/-- Claim C9: the operations of the embedding that yield a `Valid`-marked
packet (`parse`, `update_checksum`, hence also the EchoReply conversion) all
establish checksum verification over the resulting bytes, and the operations
that consume a `Valid` packet either relabel it without touching a byte
(`invalidate_header_checksum`) or are exactly relabel-then-mutate (the
consuming `set_type`/`set_code`); byte-writing operations are defined only on
`Invalid`-marked packets, so verification, once established, holds for every
`Valid`-marked packet the embedding can produce. -/
theorem valid_marker_invariant (t u : Marker) (p : Packet t CkMarker.valid)
    (bytes : List Nat) (q : Packet Marker.unknown CkMarker.valid)
    (r : Packet u CkMarker.invalid) (s : Packet Marker.echoRequest CkMarker.valid)
    (w : Packet Marker.unknown CkMarker.valid) (ty : IcmpType) (cd : Nat)
    (hok : parse bytes = Except.ok q) (hr : 8 ≤ r.buffer.length)
    (hs : 8 ≤ s.buffer.length) :
    p.invalidate_header_checksum.buffer = p.buffer
    ∧ verify_checksum q.buffer = true
    ∧ verify_checksum r.update_checksum.buffer = true
    ∧ verify_checksum (into_echoReply s).buffer = true
    ∧ w.set_type_valid ty = Packet.set_type w.invalidate_header_checksum ty
    ∧ w.set_code_valid cd = Packet.set_code w.invalidate_header_checksum cd := by
  refine ⟨rfl, ?_, ?_, ?_, rfl, rfl⟩
  · unfold parse at hok
    split_ifs at hok with h1 h2
    injection hok with hq
    subst hq
    exact h2
  · exact verify_writeU16_compute r.buffer (by omega)
  · exact verify_writeU16_compute (s.buffer.set 0 (typeToByte IcmpType.EchoReply))
      (by simp only [List.length_set]; omega)

/-- Witness for claim C9 at the test fixture's ICMP bytes. -/
theorem valid_marker_invariant_witness :
    (Packet.invalidate_header_checksum (t := Marker.echoReply)
        ⟨[8, 0, 247, 249, 0, 4, 0, 2]⟩).buffer = [8, 0, 247, 249, 0, 4, 0, 2]
    ∧ verify_checksum [8, 0, 247, 249, 0, 4, 0, 2] = true
    ∧ verify_checksum (Packet.update_checksum (t := Marker.echoRequest)
        ⟨[8, 0, 0, 0, 0, 4, 0, 2]⟩).buffer = true
    ∧ verify_checksum (into_echoReply (c := CkMarker.valid)
        ⟨[8, 0, 247, 249, 0, 4, 0, 2]⟩).buffer = true
    ∧ Packet.set_type_valid ⟨[8, 0, 247, 249, 0, 4, 0, 2]⟩ IcmpType.EchoReply
        = Packet.set_type
            (Packet.invalidate_header_checksum ⟨[8, 0, 247, 249, 0, 4, 0, 2]⟩)
            IcmpType.EchoReply
    ∧ Packet.set_code_valid ⟨[8, 0, 247, 249, 0, 4, 0, 2]⟩ 0
        = Packet.set_code
            (Packet.invalidate_header_checksum ⟨[8, 0, 247, 249, 0, 4, 0, 2]⟩) 0 :=
  valid_marker_invariant Marker.echoReply Marker.echoRequest
    ⟨[8, 0, 247, 249, 0, 4, 0, 2]⟩ [8, 0, 247, 249, 0, 4, 0, 2]
    ⟨[8, 0, 247, 249, 0, 4, 0, 2]⟩ ⟨[8, 0, 0, 0, 0, 4, 0, 2]⟩
    ⟨[8, 0, 247, 249, 0, 4, 0, 2]⟩ ⟨[8, 0, 247, 249, 0, 4, 0, 2]⟩
    IcmpType.EchoReply 0 rfl (by decide) (by decide)

end Icmp
